import Mathlib

/-!
Verification of the PropertyValue valuation pipeline.

This file embeds the deterministic core of the repository's valuation
pipeline (`state.py`, `mock_nodes.py`, `nodes.py`, `mock_graph.py`,
`a2a_client.py`, `error_handling.py`) as executable Lean definitions and
proves properties about them.

Conventions of the embedding:
* Python floats are modelled as rationals (`ℚ`), Python ints as `ℤ`.
* A Python dict key that may be wholly absent, present with value `None`,
  or present with a number is modelled by `PyNum`; `state.get(k)`
  truthiness (`None` and `0` are falsy) is `PyNum.truthy`, and
  `state.get(k, d)` is `PyNum.getD`, which yields `none` when the stored
  value is Python `None` (arithmetic on that result raises `TypeError`,
  modelled as `Except.error`).
* `random.randint` / `random.choice` results are passed in explicitly as
  `CompRand` / `MarketRand` parameters, so every stage is a deterministic
  function of the record and of the drawn randomness.
* The `PropertyValuationState` TypedDict of `state.py` becomes the
  structure `State`.  The extra field `confidence_score` models the
  `state['confidence_score']` dict key that `create_safe_response` reads
  with `state.get('confidence_score', 0)`: the TypedDict does not declare
  it and no entry point or stage ever writes it, so it is `none` in every
  state this repository constructs.
-/

namespace PropertyValue

/-- A Python numeric dict entry: the key can be wholly absent from the
dict, present with value `None`, or present with a number. -/
inductive PyNum where
  | absent : PyNum
  | pynone : PyNum
  | val : ℚ → PyNum
deriving DecidableEq

/-- Python truthiness of `state.get(field)`: only a present, nonzero
number is truthy (`None`, a missing key and `0` are all falsy). -/
def PyNum.truthy : PyNum → Bool
  | .val q => q != 0
  | _ => false

/-- `state.get(field, d)`: the default fires only when the key is wholly
absent; a key present with `None` yields `none` (Python `None`), on which
arithmetic raises `TypeError`. -/
def PyNum.getD (x : PyNum) (d : ℚ) : Option ℚ :=
  match x with
  | .absent => some d
  | .pynone => none
  | .val q => some q

/-- `state[field]` under a `truthy` guard: the stored number. -/
def PyNum.force : PyNum → ℚ
  | .val q => q
  | _ => 0

/-- One comparable-sale entry of `comparable_properties`. -/
structure Comp where
  address : String
  sold_price : ℚ
  square_footage : ℚ
  bedrooms : ℚ
  bathrooms : ℚ
  sale_date : String
  days_on_market : ℤ
deriving DecidableEq

/-- The `comparable_analysis` dict built by `mock_comparable_properties_node`. -/
structure ComparableAnalysis where
  number_of_comparables : ℕ
  average_sale_price : ℚ
  price_per_square_foot : ℚ
  comparable_quality : String
  price_range_low : ℚ
  price_range_high : ℚ
deriving DecidableEq

/-- The `market_trends` dict of `mock_market_analysis_node`. -/
structure MarketTrends where
  market_direction : String
  price_change_6_months : ℚ
  average_days_on_market : ℤ
  inventory_level : String
  buyer_demand : String
deriving DecidableEq

/-- The `neighborhood_data` dict of `mock_market_analysis_node`. -/
structure NeighborhoodData where
  school_rating : ℤ
  crime_rate : String
  walkability_score : ℤ
  nearby_amenities : List String
  transportation_access : String
deriving DecidableEq

/-- The `adjustment_factors` dict inside `market_adjustment`. -/
structure AdjustmentFactors where
  trend_adjustment : ℤ
  demand_adjustment : ℤ
  inventory_adjustment : ℤ
  neighborhood_adjustment : ℤ
deriving DecidableEq

/-- The `market_adjustment` dict stored by `mock_market_analysis_node`. -/
structure MarketAdjustment where
  adjustment_factors : AdjustmentFactors
  total_adjustment_percent : ℤ
  market_confidence : String
deriving DecidableEq

/-- The `valuation_range` min/max pair. -/
structure ValuationRange where
  min_value : ℚ
  max_value : ℚ
deriving DecidableEq

/-- The `final_assessment` dict of `mock_final_valuation_node`. -/
structure FinalAssessment where
  base_value : ℚ
  market_adjustment_percent : ℤ
  estimated_value : ℚ
  confidence_score : ℤ
  valuation_method : String
  key_value_drivers : List String
  limitations : List String
deriving DecidableEq

/-- The `response_data` dict of `mock_final_valuation_node`. -/
structure ResponseData where
  property_address : String
  estimated_value : ℚ
  valuation_range : ValuationRange
  confidence_level : String
  confidence_score : ℤ
  valuation_date : String
  appraiser_notes : String
deriving DecidableEq

/-- `PropertyValuationState` of `state.py`.  Every entry point of the
repository populates all keys (possibly with `None`), so `Option` fields
model "present with `None` / present with a value"; the empty dicts the
entry points put in `market_trends`, `comparable_analysis`, … are
modelled as `none` as well (indexing them raises `KeyError`). -/
structure State where
  property_address : String
  property_type : String
  square_footage : PyNum
  bedrooms : PyNum
  bathrooms : PyNum
  year_built : PyNum
  lot_size : PyNum
  comparable_properties : List Comp
  market_trends : Option MarketTrends
  neighborhood_data : Option NeighborhoodData
  estimated_value : Option ℚ
  confidence_level : Option String
  valuation_range : Option ValuationRange
  comparable_analysis : Option ComparableAnalysis
  market_adjustment : Option MarketAdjustment
  final_assessment : Option FinalAssessment
  current_step : String
  errors : List String
  warnings : List String
  request_id : Option String
  requesting_agent : Option String
  response_data : Option ResponseData
  confidence_score : Option ℤ
deriving DecidableEq

/-! ## Stage 1: DataIntake (`mock_property_data_collection_node`;
`mock_property_data_collection_node` of `nodes.py` runs the same logic). -/

/-- `required_fields = ['square_footage', 'bedrooms', 'bathrooms', 'year_built']`. -/
def required_fields : List String :=
  ["square_footage", "bedrooms", "bathrooms", "year_built"]

/-- Look a required field up in the record by its Python name. -/
def State.requiredField (s : State) : String → PyNum
  | "square_footage" => s.square_footage
  | "bedrooms" => s.bedrooms
  | "bathrooms" => s.bathrooms
  | _ => s.year_built

/-- `missing_fields`: the required fields for which `not state.get(field)`. -/
def missing_fields (s : State) : List String :=
  required_fields.filter (fun f => !(s.requiredField f).truthy)

/-- `data_quality_score = max(0, 100 - (len(missing_fields) * 20))`. -/
def data_quality_score (s : State) : ℤ :=
  max 0 (100 - 20 * (missing_fields s).length)

/-- The Python `repr` of a list of strings, as an f-string renders it. -/
def pyListRepr (l : List String) : String :=
  "[" ++ String.intercalate ", " (l.map (fun f => "'" ++ f ++ "'")) ++ "]"

/-- `data_completeness`: COMPLETE / PARTIAL / INCOMPLETE by the count of
missing required fields. -/
def data_completeness (s : State) : String :=
  if (missing_fields s).length = 0 then "COMPLETE"
  else if (missing_fields s).length ≤ 2 then "PARTIAL"
  else "INCOMPLETE"

/-- `mock_property_data_collection_node`: classify completeness, advance
`current_step`, and append one error (INCOMPLETE) or one warning
(PARTIAL) naming the missing fields. -/
def mock_property_data_collection_node (s : State) : State :=
  let mf := missing_fields s
  let s1 : State := { s with current_step := "property_data_collected" }
  if data_completeness s = "INCOMPLETE" then
    { s1 with errors :=
        s1.errors ++ ["Insufficient property data: missing " ++ pyListRepr mf] }
  else if data_completeness s = "PARTIAL" then
    { s1 with warnings :=
        s1.warnings ++ ["Some property data missing: " ++ pyListRepr mf] }
  else s1

/-! ## Stage 2: ComparablesAnalysis (`mock_comparable_properties_node`). -/

/-- The `random.randint` draws of `mock_comparable_properties_node`, in
source order: price deltas, square-footage deltas, the bedroom delta of
comparable 2, and the three days-on-market draws. -/
structure CompRand where
  d1 : ℤ
  d2 : ℤ
  d3 : ℤ
  sd1 : ℤ
  sd2 : ℤ
  sd3 : ℤ
  bd2 : ℤ
  dom1 : ℤ
  dom2 : ℤ
  dom3 : ℤ
deriving DecidableEq

/-- The ranges the source draws from: `randint(-50000, 50000)` twice,
`randint(-40000, 40000)`, `randint(-200, 200)`, `randint(-300, 300)`,
`randint(-250, 250)`, `randint(-1, 1)`, and the days-on-market ranges. -/
def CompRand.inBounds (r : CompRand) : Prop :=
  -50000 ≤ r.d1 ∧ r.d1 ≤ 50000 ∧ -50000 ≤ r.d2 ∧ r.d2 ≤ 50000 ∧
  -40000 ≤ r.d3 ∧ r.d3 ≤ 40000 ∧ -200 ≤ r.sd1 ∧ r.sd1 ≤ 200 ∧
  -300 ≤ r.sd2 ∧ r.sd2 ≤ 300 ∧ -250 ≤ r.sd3 ∧ r.sd3 ≤ 250 ∧
  -1 ≤ r.bd2 ∧ r.bd2 ≤ 1 ∧ 15 ≤ r.dom1 ∧ r.dom1 ≤ 60 ∧
  10 ≤ r.dom2 ∧ r.dom2 ≤ 45 ∧ 20 ≤ r.dom3 ∧ r.dom3 ≤ 80

instance (r : CompRand) : Decidable r.inBounds := by
  unfold CompRand.inBounds; infer_instance

/-- The Python `TypeError` raised by `None + random.randint(...)`. -/
def type_error_msg : String :=
  "unsupported operand type(s) for +: 'NoneType' and 'int'"

/-- `mock_comparable_properties_node`: synthesize three comparables around
the subject's attributes and compute the `comparable_analysis` summary.
`state.get('square_footage', 2000)` (and the bedroom/bathroom analogues)
return Python `None` when the key is present with value `None`, and the
`+` on that `None` raises `TypeError`, modelled as `Except.error`. -/
def mock_comparable_properties_node (r : CompRand) (s : State) : Except String State :=
  match s.square_footage.getD 2000, s.bedrooms.getD 3, s.bathrooms.getD 2 with
  | some base_sqft, some base_bed, some base_bath =>
    let comps : List Comp :=
      [ { address := "123 Similar St, Same City"
          sold_price := 450000 + (r.d1 : ℚ)
          square_footage := base_sqft + (r.sd1 : ℚ)
          bedrooms := base_bed
          bathrooms := base_bath
          sale_date := "2024-10-15"
          days_on_market := r.dom1 },
        { address := "456 Nearby Ave, Same City"
          sold_price := 475000 + (r.d2 : ℚ)
          square_footage := base_sqft + (r.sd2 : ℚ)
          bedrooms := base_bed + (r.bd2 : ℚ)
          bathrooms := base_bath
          sale_date := "2024-11-02"
          days_on_market := r.dom2 },
        { address := "789 Close Blvd, Same City"
          sold_price := 435000 + (r.d3 : ℚ)
          square_footage := base_sqft + (r.sd3 : ℚ)
          bedrooms := base_bed
          bathrooms := base_bath + 1/2
          sale_date := "2024-09-28"
          days_on_market := r.dom3 } ]
    let avg_price : ℚ := (comps.map Comp.sold_price).sum / (comps.length : ℚ)
    let avg_price_per_sqft : ℚ :=
      if s.square_footage.truthy then avg_price / s.square_footage.force
      else avg_price / 2000
    .ok { s with
      comparable_properties := comps
      comparable_analysis := some
        { number_of_comparables := comps.length
          average_sale_price := avg_price
          price_per_square_foot := avg_price_per_sqft
          comparable_quality := "GOOD"
          price_range_low := avg_price * (9/10)
          price_range_high := avg_price * (11/10) }
      current_step := "comparables_analyzed" }
  | _, _, _ => .error type_error_msg

/-! ## Stage 3: MarketAnalysis (`mock_market_analysis_node`). -/

/-- The `random.choice` / `random.randint` / `random.uniform` draws of
`mock_market_analysis_node`. -/
structure MarketRand where
  market_direction : String
  price_change_6_months : ℚ
  average_days_on_market : ℤ
  inventory_level : String
  buyer_demand : String
  school_rating : ℤ
  crime_rate : String
  walkability_score : ℤ
  transportation_access : String
deriving DecidableEq

/-- `mock_market_analysis_node`: store the trend and neighborhood
snapshots and derive the clamped market adjustment from the four
per-factor adjustments. -/
def mock_market_analysis_node (r : MarketRand) (s : State) : State :=
  let mt : MarketTrends :=
    { market_direction := r.market_direction
      price_change_6_months := r.price_change_6_months
      average_days_on_market := r.average_days_on_market
      inventory_level := r.inventory_level
      buyer_demand := r.buyer_demand }
  let nd : NeighborhoodData :=
    { school_rating := r.school_rating
      crime_rate := r.crime_rate
      walkability_score := r.walkability_score
      nearby_amenities := ["shopping", "parks", "restaurants"]
      transportation_access := r.transportation_access }
  let fac : AdjustmentFactors :=
    { trend_adjustment :=
        if mt.market_direction = "RISING" then 2
        else if mt.market_direction = "DECLINING" then -2 else 0
      demand_adjustment :=
        if mt.buyer_demand = "HIGH" then 3
        else if mt.buyer_demand = "LOW" then -3 else 0
      inventory_adjustment :=
        if mt.inventory_level = "HIGH" then -2
        else if mt.inventory_level = "LOW" then 2 else 0
      neighborhood_adjustment :=
        if 9 ≤ nd.school_rating then 5
        else if 7 ≤ nd.school_rating then 2 else -2 }
  let total : ℤ := fac.trend_adjustment + fac.demand_adjustment +
    fac.inventory_adjustment + fac.neighborhood_adjustment
  { s with
    market_trends := some mt
    neighborhood_data := some nd
    market_adjustment := some
      { adjustment_factors := fac
        total_adjustment_percent := max (-20) (min 20 total)
        market_confidence :=
          if |total| ≤ 5 then "HIGH" else if |total| ≤ 10 then "MEDIUM" else "LOW" }
    current_step := "market_analyzed" }

/-! ## Stage 4: FinalValuation (`mock_final_valuation_node`). -/

/-- How the f-string `{x:+.1f}` renders the integer market adjustment. -/
def fmt_signed_one_dec (z : ℤ) : String :=
  (if 0 ≤ z then "+" ++ toString z else "-" ++ toString (-z)) ++ ".0"

/-- The `KeyError` raised by indexing the empty `comparable_analysis` or
`market_adjustment` dict when FinalValuation runs before those stages. -/
def key_error_msg : String := "KeyError: 'average_sale_price'"

/-- `mock_final_valuation_node`: apply the market adjustment to the
comparable average, count the data-quality flags, pick the confidence
tier, build the range, the assessment and the response payload, and write
the result fields. -/
def mock_final_valuation_node (s : State) : Except String State :=
  match s.comparable_analysis, s.market_adjustment with
  | some ca, some ma =>
    let base_value := ca.average_sale_price
    let adj := ma.total_adjustment_percent
    let market_adjusted_value : ℚ := base_value * (1 + (adj : ℚ) / 100)
    let data_quality_factors : List String :=
      (if !s.square_footage.truthy then ["Missing square footage"] else []) ++
      (if s.comparable_properties.length < 3 then ["Limited comparables"] else []) ++
      (if 10 < |adj| then ["High market volatility"] else [])
    let confidence_level : String :=
      if data_quality_factors.length = 0 then "HIGH"
      else if data_quality_factors.length ≤ 1 then "MEDIUM" else "LOW"
    let confidence_score : ℤ :=
      if data_quality_factors.length = 0 then 85
      else if data_quality_factors.length ≤ 1 then 70 else 55
    let range_factor : ℚ :=
      if confidence_level = "HIGH" then 5/100
      else if confidence_level = "MEDIUM" then 10/100 else 15/100
    let vr : ValuationRange :=
      { min_value := market_adjusted_value * (1 - range_factor)
        max_value := market_adjusted_value * (1 + range_factor) }
    .ok { s with
      estimated_value := some market_adjusted_value
      confidence_level := some confidence_level
      valuation_range := some vr
      final_assessment := some
        { base_value := base_value
          market_adjustment_percent := adj
          estimated_value := market_adjusted_value
          confidence_score := confidence_score
          valuation_method := "SALES_COMPARISON_APPROACH"
          key_value_drivers :=
            ["Comparable sales analysis", "Current market conditions",
             "Neighborhood characteristics"]
          limitations := data_quality_factors }
      response_data := some
        { property_address := s.property_address
          estimated_value := market_adjusted_value
          valuation_range := vr
          confidence_level := confidence_level
          confidence_score := confidence_score
          valuation_date := "2024-12-15"
          appraiser_notes := "Mock valuation based on " ++
            toString s.comparable_properties.length ++
            " comparable sales with " ++ fmt_signed_one_dec adj ++
            "% market adjustment" }
      current_step := "valuation_completed" }
  | _, _ => .error key_error_msg

/-! ## Stage 5: ResponseDispatch (`mock_a2a_communication_node`). -/

/-- Python truthiness of an optional string (empty string is falsy). -/
def str_truthy (x : Option String) : Bool :=
  match x with
  | some a => a != ""
  | none => false

/-- How an f-string renders an optional value whose key is present:
`None` prints as the word None. -/
def py_str_of_opt (x : Option String) : String :=
  match x with
  | some a => a
  | none => "None"

/-- `mock_a2a_communication_node`: when a truthy requesting agent and a
response payload are both present, log one dispatch warning and mark the
response sent; otherwise mark the valuation ready for local use. -/
def mock_a2a_communication_node (s : State) : State :=
  if str_truthy s.requesting_agent && s.response_data.isSome then
    { s with
      current_step := "a2a_response_sent"
      warnings := s.warnings ++
        ["Mock response sent to " ++ py_str_of_opt s.requesting_agent ++
         " for request " ++ py_str_of_opt s.request_id] }
  else { s with current_step := "valuation_ready_for_use" }

/-! ## Workflows (`mock_graph.py`). -/

/-- The linear workflow `create_mock_property_valuation_workflow`:
data_collection → comparables → market_analysis → final_valuation →
a2a_communication.  A stage that raises aborts the run with its error. -/
def run_mock_workflow (cr : CompRand) (mr : MarketRand) (s : State) :
    Except String State := do
  let s1 := mock_property_data_collection_node s
  let s2 ← mock_comparable_properties_node cr s1
  let s3 := mock_market_analysis_node mr s2
  let s4 ← mock_final_valuation_node s3
  return mock_a2a_communication_node s4

/-- `should_continue_after_data_collection` of the conditional workflow:
route straight to dispatch when DataIntake left any error. -/
def should_continue_after_data_collection (s : State) : String :=
  if 0 < s.errors.length then "a2a_communication" else "comparables"

/-- The side effect of `should_continue_after_comparables`: on POOR
comparable quality append one warning (the appended list object is the
one stored in the record, so the warning persists).  The router runs only
after ComparablesAnalysis has stored `comparable_analysis`; on the empty
dict the source would raise `KeyError`, never reached in the graph. -/
def poor_quality_update (s : State) : State :=
  match s.comparable_analysis with
  | some ca =>
    if ca.comparable_quality = "POOR" then
      { s with warnings := s.warnings ++ ["Limited comparable data available"] }
    else s
  | none => s

/-- The conditional workflow
`create_mock_conditional_property_valuation_workflow`, with the list of
executed node names as a trace. -/
def run_mock_conditional_workflow (cr : CompRand) (mr : MarketRand) (s : State) :
    Except String (State × List String) :=
  let s1 := mock_property_data_collection_node s
  if should_continue_after_data_collection s1 = "a2a_communication" then
    .ok (mock_a2a_communication_node s1, ["data_collection", "a2a_communication"])
  else
    match mock_comparable_properties_node cr s1 with
    | .error e => .error e
    | .ok s2 =>
      let s3 := mock_market_analysis_node mr (poor_quality_update s2)
      match mock_final_valuation_node s3 with
      | .error e => .error e
      | .ok s4 =>
        .ok (mock_a2a_communication_node s4,
          ["data_collection", "comparables", "market_analysis",
           "final_valuation", "a2a_communication"])

/-! ## A2A envelopes (`a2a_client.py`, `error_handling.py`).

An envelope is a Python dict; `Option` on a field records whether the key
is present at all.  The `data` value can additionally be `None`
(`PyData.pynull`) or a dict of response fields whose keys can in turn be
absent, `None`, or set. -/

/-- The `data` dict of a response envelope, presence-tracking: the outer
`Option` is key presence, an inner `Option` is a value that can be
Python `None`. -/
structure RespDict where
  property_address : Option String
  estimated_value : Option (Option ℚ)
  confidence_level : Option (Option String)
  confidence_score : Option ℤ
  valuation_range : Option (Option ValuationRange)
  valuation_date : Option (Option String)
  appraiser_notes : Option String
deriving DecidableEq

/-- The empty dict `{}`. -/
def RespDict.empty : RespDict := ⟨none, none, none, none, none, none, none⟩

/-- The value under an envelope's `data` key: Python `None` or a dict. -/
inductive PyData where
  | pynull : PyData
  | dict : RespDict → PyData
deriving DecidableEq

/-- An A2A response envelope. -/
structure Envelope where
  status : Option String
  request_id : Option String
  agent : Option String
  data : Option PyData
  error_message : Option String
  errors : Option (List String)
  warnings : Option (List String)
deriving DecidableEq

/-- The `response_data` payload of the record, as the dict placed under
`data` in a SUCCESS envelope: every key present and non-`None`. -/
def ResponseData.toDict (rd : ResponseData) : RespDict :=
  { property_address := some rd.property_address
    estimated_value := some (some rd.estimated_value)
    confidence_level := some (some rd.confidence_level)
    confidence_score := some rd.confidence_score
    valuation_range := some (some rd.valuation_range)
    valuation_date := some (some rd.valuation_date)
    appraiser_notes := some rd.appraiser_notes }

/-- `A2ACommunicationHandler.validate_a2a_response`.  `Option Bool`:
`none` models the `TypeError` of `field in None`, raised when the first
`all(...)` succeeds, `status == 'SUCCESS'`, and `data` is `None` (the
`and` short-circuits when the first `all(...)` is already False). -/
def validate_a2a_response (resp : Envelope) : Option Bool :=
  let has_required : Bool :=
    resp.status.isSome && resp.request_id.isSome && resp.agent.isSome
  if resp.status = some "SUCCESS" then
    match resp.data.getD (.dict .empty) with
    | .pynull => if has_required then none else some false
    | .dict d =>
      some (has_required && d.estimated_value.isSome &&
        d.confidence_level.isSome && d.valuation_range.isSome)
  else some has_required

/-- Python truthiness of the record's `estimated_value`
(`state.get('estimated_value')`): present and nonzero. -/
def q_truthy (x : Option ℚ) : Bool :=
  match x with
  | some q => q != 0
  | none => false

/-- Truthiness of a dict entry that can be absent, `None` or a number. -/
def oq_truthy (x : Option (Option ℚ)) : Bool :=
  match x with
  | some (some q) => q != 0
  | _ => false

/-- `create_safe_response` of `error_handling.py`: the degraded envelope
built from whatever partial fields exist in the record.  Note it carries
no `request_id` key, and `state.get('confidence_level', 'LOW')` /
`state.get('confidence_score', 0)` default only when the key is absent:
`confidence_level` is always a present key (possibly `None`), while
`confidence_score` is a key no stage writes, so the default 0 fires. -/
def create_safe_response (s : State) : Envelope :=
  let base : RespDict :=
    { property_address := some s.property_address
      estimated_value := some none
      confidence_level := some (some "LOW")
      confidence_score := some 0
      valuation_range := some none
      valuation_date := some none
      appraiser_notes := some "Valuation could not be completed due to system error" }
  let d : RespDict :=
    if q_truthy s.estimated_value then
      { base with
        estimated_value := some s.estimated_value
        confidence_level := some s.confidence_level
        confidence_score := some (s.confidence_score.getD 0)
        valuation_range := some s.valuation_range }
    else base
  { status := some (if oq_truthy d.estimated_value then "PARTIAL_SUCCESS" else "ERROR")
    request_id := none
    agent := some "PropertyValuation"
    data := some (.dict d)
    error_message := none
    errors := some s.errors
    warnings := some s.warnings }

/-! ## `A2APropertyValuationClient.process_valuation_request`. -/

/-- An inbound valuation request (`request_data`): `request_data.get(k)`
yields `None` both for an absent key and for an explicit `None`. -/
structure Request where
  property_address : Option String
  property_type : Option String
  square_footage : Option ℚ
  bedrooms : Option ℚ
  bathrooms : Option ℚ
  year_built : Option ℚ
  lot_size : Option ℚ
deriving DecidableEq

/-- A request field stored into the state: the key is always written, so
an omitted request value becomes a present key holding `None`. -/
def opt_to_py (x : Option ℚ) : PyNum :=
  match x with
  | none => .pynone
  | some q => .val q

/-- The initial `PropertyValuationState` that `process_valuation_request`
(and `run_standalone_valuation`) construct. -/
def initial_state (req : Request) (request_id requesting_agent : Option String) :
    State :=
  { property_address := req.property_address.getD ""
    property_type := req.property_type.getD "single_family"
    square_footage := opt_to_py req.square_footage
    bedrooms := opt_to_py req.bedrooms
    bathrooms := opt_to_py req.bathrooms
    year_built := opt_to_py req.year_built
    lot_size := opt_to_py req.lot_size
    comparable_properties := []
    market_trends := none
    neighborhood_data := none
    estimated_value := none
    confidence_level := none
    valuation_range := none
    comparable_analysis := none
    market_adjustment := none
    final_assessment := none
    current_step := "initialized"
    errors := []
    warnings := []
    request_id := request_id
    requesting_agent := requesting_agent
    response_data := none
    confidence_score := none }

/-- The agent name of the default (mock-backed) client. -/
def mock_agent_name : String := "PropertyValuation (Mock)"

/-- `A2APropertyValuationClient.process_valuation_request`: run the
workflow on a fresh record and package the outcome; any exception raised
by the workflow is caught and mapped to an ERROR envelope.  The generated
`uuid4` request id is a parameter. -/
def process_valuation_request (cr : CompRand) (mr : MarketRand)
    (request_id : String) (req : Request) (requesting_agent : String) : Envelope :=
  match run_mock_workflow cr mr
      (initial_state req (some request_id) (some requesting_agent)) with
  | .ok result =>
    { status := some "SUCCESS"
      request_id := some request_id
      agent := some mock_agent_name
      data := some (match result.response_data with
        | some rd => .dict rd.toDict
        | none => .pynull)
      error_message := none
      errors := some result.errors
      warnings := some result.warnings }
  | .error msg =>
    { status := some "ERROR"
      request_id := some request_id
      agent := some mock_agent_name
      data := some .pynull
      error_message := some msg
      errors := none
      warnings := none }

/-! ## Concrete fixtures for witnesses and counterexamples. -/

/-- A draw with all price/size deltas zero (inside every source range
except days-on-market, which are set inside their ranges). -/
def cr0 : CompRand := ⟨0, 0, 0, 0, 0, 0, 0, 20, 20, 30⟩

/-- A draw of stable/moderate market conditions and school rating 8. -/
def mr0 : MarketRand :=
  { market_direction := "STABLE"
    price_change_6_months := 1
    average_days_on_market := 30
    inventory_level := "MODERATE"
    buyer_demand := "MODERATE"
    school_rating := 8
    crime_rate := "LOW"
    walkability_score := 70
    transportation_access := "GOOD" }

/-- The complete sample request of `main.py`. -/
def req_full : Request :=
  { property_address := some "123 Test Street, Sample City, TX 75001"
    property_type := some "single_family"
    square_footage := some 2200
    bedrooms := some 4
    bathrooms := some (5/2)
    year_built := some 2010
    lot_size := some (1/4) }

/-- A request missing bedrooms, bathrooms and year built (three missing
required attributes). -/
def req_missing : Request :=
  { property_address := some "456 Oak Street, Springfield, IL 62701"
    property_type := some "single_family"
    square_footage := some 1800
    bedrooms := none
    bathrooms := none
    year_built := none
    lot_size := none }

/-- The comparable analysis of a concrete intermediate record, for the C3
witness. -/
def ca0 : ComparableAnalysis :=
  { number_of_comparables := 3
    average_sale_price := 1360000/3
    price_per_square_foot := (1360000/3)/2200
    comparable_quality := "GOOD"
    price_range_low := (1360000/3) * (9/10)
    price_range_high := (1360000/3) * (11/10) }

/-- The market adjustment of a concrete intermediate record. -/
def ma0 : MarketAdjustment :=
  { adjustment_factors :=
      { trend_adjustment := 0, demand_adjustment := 0,
        inventory_adjustment := 0, neighborhood_adjustment := 2 }
    total_adjustment_percent := 2
    market_confidence := "HIGH" }

/-- A concrete record entering FinalValuation. -/
def s_c3 : State :=
  { initial_state req_full (some "REQ-1") (some "MortgageApproval") with
    comparable_analysis := some ca0
    market_adjustment := some ma0 }

/-- A request in which every required attribute key is present and only
`square_footage` is the number 0 (none is absent or `None`). -/
def req_zero : Request :=
  { property_address := some "9 Zero Way, Sample City, TX 75001"
    property_type := none
    square_footage := some 0
    bedrooms := some 3
    bathrooms := some 2
    year_built := some 1999
    lot_size := none }

/-- A SUCCESS envelope whose data lacks `valuation_range`. -/
def success_missing_range_envelope : Envelope :=
  { status := some "SUCCESS"
    request_id := some "REQ-2"
    agent := some "PropertyValuation"
    data := some (.dict
      { RespDict.empty with
        estimated_value := some (some 450000)
        confidence_level := some (some "HIGH") })
    error_message := none
    errors := none
    warnings := none }

/-- A minimal ERROR envelope with only `status`, `request_id`, `agent`. -/
def minimal_error_envelope : Envelope :=
  { status := some "ERROR"
    request_id := some "REQ-3"
    agent := some "PropertyValuation"
    data := none
    error_message := none
    errors := none
    warnings := none }

/-- A request whose `square_footage` is absent (so the constructed state
holds the key with Python `None`), with the other required attributes
present. -/
def req_no_sqft : Request :=
  { property_address := some "789 Pine Avenue, Metro City, CA 90210"
    property_type := some "condo"
    square_footage := none
    bedrooms := some 3
    bathrooms := some 2
    year_built := some 2005
    lot_size := none }

/-- A record whose `estimated_value` is set to the float 0.0. -/
def s_zero_est : State :=
  { initial_state req_full none none with estimated_value := some 0 }

/-! ## Run prefixes of the linear workflow, for stage-by-stage
invariants. -/

/-- The record after DataIntake on a fresh request. -/
def pipeline_after_intake (req : Request) (rid rag : Option String) : State :=
  mock_property_data_collection_node (initial_state req rid rag)

/-- The record (or stage fault) after ComparablesAnalysis. -/
def pipeline_after_comparables (cr : CompRand) (req : Request)
    (rid rag : Option String) : Except String State :=
  mock_comparable_properties_node cr (pipeline_after_intake req rid rag)

/-- The record (or stage fault) after MarketAnalysis. -/
def pipeline_after_market (cr : CompRand) (mr : MarketRand) (req : Request)
    (rid rag : Option String) : Except String State :=
  (pipeline_after_comparables cr req rid rag).map (mock_market_analysis_node mr)

/-- The record (or stage fault) after FinalValuation. -/
def pipeline_after_final (cr : CompRand) (mr : MarketRand) (req : Request)
    (rid rag : Option String) : Except String State :=
  (pipeline_after_market cr mr req rid rag).bind mock_final_valuation_node

/-- The record (or stage fault) after ResponseDispatch. -/
def pipeline_after_dispatch (cr : CompRand) (mr : MarketRand) (req : Request)
    (rid rag : Option String) : Except String State :=
  (pipeline_after_final cr mr req rid rag).map mock_a2a_communication_node

/-- The prefixes compose to the linear workflow. -/
lemma run_mock_workflow_eq_dispatch (cr : CompRand) (mr : MarketRand)
    (req : Request) (rid rag : Option String) :
    run_mock_workflow cr mr (initial_state req rid rag) =
      pipeline_after_dispatch cr mr req rid rag := by
  unfold run_mock_workflow pipeline_after_dispatch pipeline_after_final
    pipeline_after_market pipeline_after_comparables pipeline_after_intake
  rcases h2 : mock_comparable_properties_node cr
      (mock_property_data_collection_node (initial_state req rid rag)) with e | s2
  · simp [Bind.bind, Except.bind, h2, Except.map]
  · rcases h4 : mock_final_valuation_node (mock_market_analysis_node mr s2) with e | s4 <;>
      simp [Bind.bind, Except.bind, h2, h4, Except.map, Pure.pure, Except.pure]

/-! ## The all-or-nothing results invariant. -/

/-- The results fields are consistent: `estimated_value`,
`confidence_level` and `valuation_range` are set together, and the range
brackets the estimate. -/
def results_consistent (s : State) : Prop :=
  (s.estimated_value.isSome ↔ s.confidence_level.isSome) ∧
  (s.estimated_value.isSome ↔ s.valuation_range.isSome) ∧
  ∀ v r, s.estimated_value = some v → s.valuation_range = some r →
    r.min_value ≤ v ∧ v ≤ r.max_value

/-- `results_consistent` on a stage outcome; a raised stage leaves no
record. -/
def results_consistentE : Except String State → Prop
  | .error _ => True
  | .ok s => results_consistent s

lemma results_consistent_of_fields (s t : State)
    (h1 : t.estimated_value = s.estimated_value)
    (h2 : t.confidence_level = s.confidence_level)
    (h3 : t.valuation_range = s.valuation_range)
    (hs : results_consistent s) : results_consistent t := by
  unfold results_consistent at hs ⊢
  rw [h1, h2, h3]
  exact hs

lemma results_consistent_of_none (s : State)
    (h1 : s.estimated_value = none)
    (h2 : s.confidence_level = none)
    (h3 : s.valuation_range = none) : results_consistent s := by
  unfold results_consistent
  rw [h1, h2, h3]
  simp

/-! ## Frame lemmas for the five stages. -/

lemma mock_property_data_collection_node_frame (s : State) :
    (mock_property_data_collection_node s).estimated_value = s.estimated_value ∧
    (mock_property_data_collection_node s).confidence_level = s.confidence_level ∧
    (mock_property_data_collection_node s).valuation_range = s.valuation_range ∧
    (mock_property_data_collection_node s).comparable_analysis = s.comparable_analysis ∧
    (mock_property_data_collection_node s).market_adjustment = s.market_adjustment ∧
    (mock_property_data_collection_node s).response_data = s.response_data ∧
    (mock_property_data_collection_node s).confidence_score = s.confidence_score ∧
    (mock_property_data_collection_node s).requesting_agent = s.requesting_agent := by
  unfold mock_property_data_collection_node
  split_ifs <;> simp

lemma mock_comparable_properties_node_ok (r : CompRand) (s t : State)
    (hb : r.inBounds) (h : mock_comparable_properties_node r s = .ok t) :
    t.estimated_value = s.estimated_value ∧
    t.confidence_level = s.confidence_level ∧
    t.valuation_range = s.valuation_range ∧
    t.market_adjustment = s.market_adjustment ∧
    t.response_data = s.response_data ∧
    t.confidence_score = s.confidence_score ∧
    t.requesting_agent = s.requesting_agent ∧
    t.errors = s.errors ∧
    (∃ ca, t.comparable_analysis = some ca ∧ 0 ≤ ca.average_sale_price) := by
  unfold mock_comparable_properties_node at h
  split at h
  case _ base_sqft base_bed base_bath hsq hbd hba =>
    obtain ⟨hd1, hd1u, hd2, hd2u, hd3, hd3u, _⟩ := hb
    simp only [Except.ok.injEq] at h
    subst h
    refine ⟨rfl, rfl, rfl, rfl, rfl, rfl, rfl, rfl, _, rfl, ?_⟩
    have c1 : (-50000 : ℚ) ≤ (r.d1 : ℚ) := by exact_mod_cast hd1
    have c2 : (-50000 : ℚ) ≤ (r.d2 : ℚ) := by exact_mod_cast hd2
    have c3 : (-40000 : ℚ) ≤ (r.d3 : ℚ) := by exact_mod_cast hd3
    simp only [List.map_cons, List.map_nil, List.sum_cons, List.sum_nil, List.length_cons,
      List.length_nil]
    have hnum : (0 : ℚ) ≤
        450000 + (r.d1 : ℚ) + (475000 + (r.d2 : ℚ) + (435000 + (r.d3 : ℚ) + 0)) := by
      linarith
    positivity
  case _ => simp at h

/-- ComparablesAnalysis never writes the `confidence_score` key. -/
lemma mock_comparable_properties_node_ok_fields (r : CompRand) (s t : State)
    (h : mock_comparable_properties_node r s = .ok t) :
    t.confidence_score = s.confidence_score := by
  unfold mock_comparable_properties_node at h
  split at h
  · simp only [Except.ok.injEq] at h
    subst h
    rfl
  · simp at h

lemma mock_market_analysis_node_shape (r : MarketRand) (s : State) :
    (mock_market_analysis_node r s).estimated_value = s.estimated_value ∧
    (mock_market_analysis_node r s).confidence_level = s.confidence_level ∧
    (mock_market_analysis_node r s).valuation_range = s.valuation_range ∧
    (mock_market_analysis_node r s).comparable_analysis = s.comparable_analysis ∧
    (mock_market_analysis_node r s).comparable_properties = s.comparable_properties ∧
    (mock_market_analysis_node r s).response_data = s.response_data ∧
    (mock_market_analysis_node r s).confidence_score = s.confidence_score ∧
    (mock_market_analysis_node r s).requesting_agent = s.requesting_agent ∧
    (mock_market_analysis_node r s).errors = s.errors ∧
    (mock_market_analysis_node r s).warnings = s.warnings ∧
    ∃ m, (mock_market_analysis_node r s).market_adjustment = some m ∧
      -20 ≤ m.total_adjustment_percent ∧ m.total_adjustment_percent ≤ 20 := by
  refine ⟨rfl, rfl, rfl, rfl, rfl, rfl, rfl, rfl, rfl, rfl, _, rfl, ?_, ?_⟩
  · exact le_max_left _ _
  · exact max_le (by norm_num) (min_le_left _ _)

lemma mock_a2a_communication_node_frame (s : State) :
    (mock_a2a_communication_node s).estimated_value = s.estimated_value ∧
    (mock_a2a_communication_node s).confidence_level = s.confidence_level ∧
    (mock_a2a_communication_node s).valuation_range = s.valuation_range ∧
    (mock_a2a_communication_node s).comparable_analysis = s.comparable_analysis ∧
    (mock_a2a_communication_node s).market_adjustment = s.market_adjustment ∧
    (mock_a2a_communication_node s).response_data = s.response_data ∧
    (mock_a2a_communication_node s).confidence_score = s.confidence_score ∧
    (mock_a2a_communication_node s).errors = s.errors := by
  unfold mock_a2a_communication_node
  split_ifs <;> simp

lemma range_brackets (A f : ℚ) (hA : 0 ≤ A) (hf : 0 ≤ f) :
    A * (1 - f) ≤ A ∧ A ≤ A * (1 + f) := by
  constructor <;> nlinarith

lemma mock_final_valuation_node_consistent (s : State) (ca : ComparableAnalysis)
    (ma : MarketAdjustment) (hca : s.comparable_analysis = some ca)
    (hma : s.market_adjustment = some ma) (havg : 0 ≤ ca.average_sale_price)
    (h1 : -20 ≤ ma.total_adjustment_percent)
    (_h2 : ma.total_adjustment_percent ≤ 20) :
    ∃ t, mock_final_valuation_node s = .ok t ∧ results_consistent t := by
  unfold mock_final_valuation_node
  rw [hca, hma]
  refine ⟨_, rfl, ?_⟩
  unfold results_consistent
  refine ⟨by simp, by simp, ?_⟩
  intro v r hv hr
  simp only [Option.some.injEq] at hv hr
  subst hv
  subst hr
  have hq1 : (-20 : ℚ) ≤ (ma.total_adjustment_percent : ℚ) := by exact_mod_cast h1
  have hv0 : 0 ≤ ca.average_sale_price * (1 + (ma.total_adjustment_percent : ℚ) / 100) := by
    have h3 : (0 : ℚ) ≤ 1 + (ma.total_adjustment_percent : ℚ) / 100 := by linarith
    exact mul_nonneg havg h3
  exact range_brackets _ _ hv0 (by split_ifs <;> norm_num)

/-! ## Claim theorems. -/

/-- C1 (amended).  Along the linear workflow on a fresh request, after
every pipeline stage the record satisfies: `estimated_value` is non-null
iff `confidence_level` is, iff `valuation_range` is, and
`valuation_range.min_value ≤ estimated_value ≤ valuation_range.max_value`.
The claim's further conjunct that a record-level `confidence_score` is set
together with `estimated_value` is false — the state carries no such key
(see the counterexample); the score lives in `response_data` and
`final_assessment` only. -/
theorem c1_results_all_or_nothing_after_each_stage (req : Request)
    (rid rag : Option String) (cr : CompRand) (mr : MarketRand)
    (hcr : cr.inBounds) :
    results_consistent (initial_state req rid rag) ∧
    results_consistent (pipeline_after_intake req rid rag) ∧
    results_consistentE (pipeline_after_comparables cr req rid rag) ∧
    results_consistentE (pipeline_after_market cr mr req rid rag) ∧
    results_consistentE (pipeline_after_final cr mr req rid rag) ∧
    results_consistentE (pipeline_after_dispatch cr mr req rid rag) := by
  have h0 : results_consistent (initial_state req rid rag) :=
    results_consistent_of_none _ rfl rfl rfl
  obtain ⟨e1, c1, v1, ca1, ma1, rd1, cs1, ra1⟩ :=
    mock_property_data_collection_node_frame (initial_state req rid rag)
  have hie : (pipeline_after_intake req rid rag).estimated_value = none := e1
  have hic : (pipeline_after_intake req rid rag).confidence_level = none := c1
  have hiv : (pipeline_after_intake req rid rag).valuation_range = none := v1
  have h1 : results_consistent (pipeline_after_intake req rid rag) :=
    results_consistent_of_none _ hie hic hiv
  cases hc : pipeline_after_comparables cr req rid rag with
  | error e =>
    refine ⟨h0, h1, ?_, ?_, ?_, ?_⟩ <;>
      simp [pipeline_after_market, pipeline_after_final, pipeline_after_dispatch,
        hc, Except.map, Except.bind, results_consistentE]
  | ok s2 =>
    obtain ⟨e2, c2, v2, m2, rd2, cs2, ra2, er2, ca, hca, havg⟩ :=
      mock_comparable_properties_node_ok cr _ s2 hcr hc
    have h2 : results_consistent s2 :=
      results_consistent_of_none _ (e2.trans hie) (c2.trans hic) (v2.trans hiv)
    obtain ⟨me, mc, mv, mca, mcp, mrd, mcs, mra, mer, mw, m, hm, hml, hmr⟩ :=
      mock_market_analysis_node_shape mr s2
    have h3 : results_consistent (mock_market_analysis_node mr s2) :=
      results_consistent_of_none _ (me.trans (e2.trans hie))
        (mc.trans (c2.trans hic)) (mv.trans (v2.trans hiv))
    obtain ⟨t, hfin, h4⟩ :=
      mock_final_valuation_node_consistent (mock_market_analysis_node mr s2) ca m
        (mca.trans hca) hm havg hml hmr
    obtain ⟨ae, ac, av, _⟩ := mock_a2a_communication_node_frame t
    have h5 : results_consistent (mock_a2a_communication_node t) :=
      results_consistent_of_fields t _ ae ac av h4
    refine ⟨h0, h1, ?_, ?_, ?_, ?_⟩ <;>
      simp [pipeline_after_market, pipeline_after_final, pipeline_after_dispatch,
        hc, hfin, Except.map, Except.bind, results_consistentE, h2, h3, h4, h5]

/-- C1 witness: the bounds hypothesis holds at the concrete draw, and the
instantiated theorem yields the invariant at the first stage boundary. -/
theorem c1_results_all_or_nothing_witness :
    CompRand.inBounds cr0 ∧
    results_consistent (initial_state req_full (some "REQ-1") (some "MortgageApproval")) :=
  ⟨by decide,
   (c1_results_all_or_nothing_after_each_stage req_full (some "REQ-1")
      (some "MortgageApproval") cr0 mr0 (by decide)).1⟩

/-- C1 counterexample to the claim as stated: at a concrete successful
run the final record has `estimated_value` set but no `confidence_score`
(`state.get('confidence_score')` would be `None`), so the claimed
all-or-nothing group including `confidence_score` fails on the record. -/
theorem c1_confidence_score_never_set_counterexample :
    (run_mock_workflow cr0 mr0
        (initial_state req_full (some "REQ-1") (some "MortgageApproval"))).toOption.map
      (fun t => (t.estimated_value.isSome, t.confidence_score.isSome)) =
      some (true, false) := by
  simp [run_mock_workflow, initial_state, req_full, mock_property_data_collection_node,
    data_completeness, missing_fields, required_fields, State.requiredField, PyNum.truthy,
    mock_comparable_properties_node, PyNum.getD, PyNum.force, mock_market_analysis_node,
    mock_final_valuation_node, mock_a2a_communication_node, cr0, mr0, opt_to_py, str_truthy,
    Bind.bind, Except.bind, Functor.map, Except.map, Pure.pure, Except.pure,
    Except.toOption]

/-- C2.  For every combination of market direction, buyer demand,
inventory level and school rating drawn by MarketAnalysis, the stored
`total_adjustment_percent` is the clamp to [-20, 20] of the sum of the
four per-factor adjustments (trend +2, -2 or 0, demand +3, -3 or 0,
inventory -2, +2 or 0, neighborhood +5 if school rating ≥ 9, +2 if ≥ 7,
else -2), and
it always lies in [-20, 20]. -/
theorem c2_market_adjustment_clamped_in_range (r : MarketRand) (s : State) :
    ∃ m, (mock_market_analysis_node r s).market_adjustment = some m ∧
      m.total_adjustment_percent =
        max (-20) (min 20
          ((if r.market_direction = "RISING" then 2
            else if r.market_direction = "DECLINING" then -2 else 0) +
           (if r.buyer_demand = "HIGH" then 3
            else if r.buyer_demand = "LOW" then -3 else 0) +
           (if r.inventory_level = "HIGH" then -2
            else if r.inventory_level = "LOW" then 2 else 0) +
           (if 9 ≤ r.school_rating then 5
            else if 7 ≤ r.school_rating then 2 else -2))) ∧
      -20 ≤ m.total_adjustment_percent ∧ m.total_adjustment_percent ≤ 20 :=
  ⟨_, rfl, rfl, le_max_left _ _, max_le (by norm_num) (min_le_left _ _)⟩

/-- C3.  For every record entering FinalValuation (with the comparable
analysis and market adjustment present), the number `n` of data-quality
flags (missing/zero square footage; fewer than 3 comparables; absolute
adjustment over 10) determines the outputs exactly by the table:
n = 0 → HIGH/85/half-width 5 percent, n = 1 → MEDIUM/70/10 percent,
n ≥ 2 → LOW/55/15 percent, and the adjusted value is the comparable
average times (1 + adjustment/100). -/
theorem c3_final_valuation_confidence_table (s : State) (ca : ComparableAnalysis)
    (ma : MarketAdjustment) (hca : s.comparable_analysis = some ca)
    (hma : s.market_adjustment = some ma) :
    ∃ (n : ℕ) (v : ℚ) (t : State) (rd : ResponseData),
      n = (if s.square_footage.truthy then 0 else 1) +
          (if s.comparable_properties.length < 3 then 1 else 0) +
          (if 10 < |ma.total_adjustment_percent| then 1 else 0) ∧
      v = ca.average_sale_price * (1 + (ma.total_adjustment_percent : ℚ) / 100) ∧
      mock_final_valuation_node s = .ok t ∧
      t.response_data = some rd ∧
      t.estimated_value = some v ∧
      t.confidence_level =
        some (if n = 0 then "HIGH" else if n = 1 then "MEDIUM" else "LOW") ∧
      rd.confidence_level =
        (if n = 0 then "HIGH" else if n = 1 then "MEDIUM" else "LOW") ∧
      rd.confidence_score = (if n = 0 then 85 else if n = 1 then 70 else 55) ∧
      rd.estimated_value = v ∧
      t.valuation_range = some
        { min_value := v * (1 - (if n = 0 then 5 else if n = 1 then 10 else 15) / 100)
          max_value := v * (1 + (if n = 0 then 5 else if n = 1 then 10 else 15) / 100) } ∧
      rd.valuation_range =
        { min_value := v * (1 - (if n = 0 then 5 else if n = 1 then 10 else 15) / 100)
          max_value := v * (1 + (if n = 0 then 5 else if n = 1 then 10 else 15) / 100) } := by
  unfold mock_final_valuation_node
  rw [hca, hma]
  cases hsq : s.square_footage.truthy <;>
    by_cases hcp : s.comparable_properties.length < 3 <;>
      by_cases hadj : 10 < |ma.total_adjustment_percent| <;>
        refine ⟨_, _, _, _, rfl, rfl, rfl, rfl, ?_, ?_, ?_, ?_, ?_, ?_, ?_⟩ <;>
          simp [hsq, hcp, hadj]

/-- C3 witness: at the concrete record the hypotheses hold and the stage
succeeds. -/
theorem c3_final_valuation_confidence_table_witness :
    (mock_final_valuation_node s_c3).toOption.isSome = true := by
  obtain ⟨n, v, t, rd, _, _, hrun, _⟩ :=
    c3_final_valuation_confidence_table s_c3 ca0 ma0 rfl rfl
  rw [hrun]
  rfl

/-- C4 (amended).  DataIntake with `missing` the count of required
attributes that are absent or zero (Python-falsy, see the counterexample:
a present value 0 also counts) behaves by the table: 0 missing →
COMPLETE, no log entry; 1-2 missing → PARTIAL with exactly one warning
naming the missing fields; 3 or more → INCOMPLETE with exactly one error;
quality score max(0, 100 - 20·missing); `current_step` advanced to the
fixed marker in every case. -/
theorem c4_data_intake_table (s : State) :
    (mock_property_data_collection_node s).current_step = "property_data_collected" ∧
    data_quality_score s = max 0 (100 - 20 * ((missing_fields s).length : ℤ)) ∧
    data_completeness s =
      (if (missing_fields s).length = 0 then "COMPLETE"
       else if (missing_fields s).length ≤ 2 then "PARTIAL" else "INCOMPLETE") ∧
    (mock_property_data_collection_node s).errors = s.errors ++
      (if 3 ≤ (missing_fields s).length then
        ["Insufficient property data: missing " ++ pyListRepr (missing_fields s)]
       else []) ∧
    (mock_property_data_collection_node s).warnings = s.warnings ++
      (if 1 ≤ (missing_fields s).length ∧ (missing_fields s).length ≤ 2 then
        ["Some property data missing: " ++ pyListRepr (missing_fields s)]
       else []) ∧
    ("square_footage" ∈ missing_fields s ↔ s.square_footage.truthy = false) ∧
    ("bedrooms" ∈ missing_fields s ↔ s.bedrooms.truthy = false) ∧
    ("bathrooms" ∈ missing_fields s ↔ s.bathrooms.truthy = false) ∧
    ("year_built" ∈ missing_fields s ↔ s.year_built.truthy = false) := by
  refine ⟨?_, rfl, rfl, ?_, ?_, ?_, ?_, ?_, ?_⟩
  · unfold mock_property_data_collection_node
    split_ifs <;> rfl
  · unfold mock_property_data_collection_node data_completeness
    by_cases h0 : (missing_fields s).length = 0
    · simp [h0]
    · by_cases h2 : (missing_fields s).length ≤ 2
      · have h3 : ¬ 3 ≤ (missing_fields s).length := by omega
        simp [h0, h2, h3]
      · have h3 : 3 ≤ (missing_fields s).length := by omega
        simp [h0, h2, h3]
  · unfold mock_property_data_collection_node data_completeness
    by_cases h0 : (missing_fields s).length = 0
    · simp [h0]
    · by_cases h2 : (missing_fields s).length ≤ 2
      · have h1 : 1 ≤ (missing_fields s).length := by omega
        simp [h0, h2, h1]
      · simp [h0, h2]
  all_goals
    simp [missing_fields, required_fields, State.requiredField, List.mem_filter]

/-- C4 counterexample to the claim as stated: in this record no required
attribute is absent (all four are present numbers), so the claim's
`missing = 0` predicts COMPLETE, no log entry and score 100; the code
counts the present value 0 as missing and yields PARTIAL, one warning and
score 80. -/
theorem c4_zero_counted_as_missing_counterexample :
    (initial_state req_zero none none).square_footage = PyNum.val 0 ∧
    (initial_state req_zero none none).bedrooms = PyNum.val 3 ∧
    (initial_state req_zero none none).bathrooms = PyNum.val 2 ∧
    (initial_state req_zero none none).year_built = PyNum.val 1999 ∧
    missing_fields (initial_state req_zero none none) = ["square_footage"] ∧
    data_completeness (initial_state req_zero none none) = "PARTIAL" ∧
    data_quality_score (initial_state req_zero none none) = 80 ∧
    (mock_property_data_collection_node (initial_state req_zero none none)).warnings =
      ["Some property data missing: ['square_footage']"] := by
  decide

/-- C5.  `validate_a2a_response` returns True exactly when the envelope
carries `status`, `request_id` and `agent` and, when the status is
SUCCESS, its data is a dict carrying `estimated_value`,
`confidence_level` and `valuation_range`; in particular it rejects a
SUCCESS envelope whose data lacks `valuation_range` and accepts a minimal
ERROR envelope. -/
theorem c5_validate_a2a_response_contract :
    (∀ e : Envelope, validate_a2a_response e = some true ↔
      (e.status.isSome ∧ e.request_id.isSome ∧ e.agent.isSome ∧
        (e.status = some "SUCCESS" →
          ∃ d, e.data.getD (.dict .empty) = .dict d ∧ d.estimated_value.isSome ∧
            d.confidence_level.isSome ∧ d.valuation_range.isSome))) ∧
    validate_a2a_response success_missing_range_envelope = some false ∧
    validate_a2a_response minimal_error_envelope = some true := by
  refine ⟨?_, by decide, by decide⟩
  intro e
  unfold validate_a2a_response
  by_cases hs : e.status = some "SUCCESS"
  · rw [if_pos hs]
    cases hd : e.data.getD (.dict .empty) with
    | pynull =>
      constructor
      · intro h
        simp only [] at h
        split_ifs at h
        all_goals simp at h
      · rintro ⟨-, -, -, hi⟩
        obtain ⟨d, hdd, -⟩ := hi hs
        exact absurd hdd (by simp)
    | dict d =>
      constructor
      · intro h
        simp only [Option.some.injEq, Bool.and_eq_true] at h
        obtain ⟨⟨⟨⟨⟨h1, h2⟩, h3⟩, h4⟩, h5⟩, h6⟩ := h
        exact ⟨h1, h2, h3, fun _ => ⟨d, rfl, h4, h5, h6⟩⟩
      · rintro ⟨h1, h2, h3, h4⟩
        obtain ⟨d2, hdd, he1, he2, he3⟩ := h4 hs
        cases hdd
        simp [h1, h2, h3, he1, he2, he3]
  · rw [if_neg hs]
    constructor
    · intro h
      simp only [Option.some.injEq, Bool.and_eq_true] at h
      exact ⟨h.1.1, h.1.2, h.2, fun hss => absurd hss hs⟩
    · rintro ⟨h1, h2, h3, -⟩
      simp [h1, h2, h3]

/-- C6.  `process_valuation_request` always returns a well-formed
envelope carrying `status`, `request_id` and `agent`: on successful
workflow completion a SUCCESS envelope with data, errors and warnings
drawn from the final record, and when the workflow raises any exception
an ERROR envelope with the exception text and null data — the caller
never observes a raw fault. -/
theorem c6_process_valuation_request_envelope (cr : CompRand) (mr : MarketRand)
    (rid : String) (req : Request) (ragent : String) :
    (process_valuation_request cr mr rid req ragent).status.isSome ∧
    (process_valuation_request cr mr rid req ragent).request_id = some rid ∧
    (process_valuation_request cr mr rid req ragent).agent = some mock_agent_name ∧
    ((process_valuation_request cr mr rid req ragent).status = some "SUCCESS" ∨
      (process_valuation_request cr mr rid req ragent).status = some "ERROR") ∧
    (∀ res, run_mock_workflow cr mr
        (initial_state req (some rid) (some ragent)) = .ok res →
      process_valuation_request cr mr rid req ragent =
        { status := some "SUCCESS"
          request_id := some rid
          agent := some mock_agent_name
          data := some (match res.response_data with
            | some rd => .dict rd.toDict
            | none => .pynull)
          error_message := none
          errors := some res.errors
          warnings := some res.warnings }) ∧
    (∀ msg, run_mock_workflow cr mr
        (initial_state req (some rid) (some ragent)) = .error msg →
      process_valuation_request cr mr rid req ragent =
        { status := some "ERROR"
          request_id := some rid
          agent := some mock_agent_name
          data := some .pynull
          error_message := some msg
          errors := none
          warnings := none }) := by
  unfold process_valuation_request
  cases hrun : run_mock_workflow cr mr
      (initial_state req (some rid) (some ragent)) with
  | ok res =>
    refine ⟨by simp, rfl, rfl, by simp, ?_, ?_⟩
    · intro r hr
      cases hr
      rfl
    · intro m hm
      exact Except.noConfusion hm
  | error msg =>
    refine ⟨by simp, rfl, rfl, by simp, ?_, ?_⟩
    · intro r hr
      exact Except.noConfusion hr
    · intro m hm
      cases hm
      rfl

/-- C7 (amended).  ResponseDispatch never touches the error log.  It
appends exactly one dispatch warning — naming the requester and the
request id — precisely when a truthy requesting agent AND a response
payload are both present, and then marks the response sent; in every
other case (standalone invocation, and also an A2A invocation whose run
produced no payload, see the counterexample) it appends nothing and marks
the record ready for local use. -/
theorem c7_response_dispatch_warning (s : State) :
    (mock_a2a_communication_node s).errors = s.errors ∧
    (mock_a2a_communication_node s).warnings = s.warnings ++
      (if str_truthy s.requesting_agent && s.response_data.isSome then
        ["Mock response sent to " ++ py_str_of_opt s.requesting_agent ++
         " for request " ++ py_str_of_opt s.request_id]
       else []) ∧
    (mock_a2a_communication_node s).current_step =
      (if str_truthy s.requesting_agent && s.response_data.isSome then
        "a2a_response_sent" else "valuation_ready_for_use") := by
  unfold mock_a2a_communication_node
  split_ifs <;> simp

/-- C7 counterexample to the claim as stated: a genuine A2A invocation
(requesting agent present) that short-circuits out of DataIntake reaches
ResponseDispatch with no response payload; the conditional run ends with
zero dispatch warnings and the record marked for local use, so an A2A
invocation does not always append a dispatch warning. -/
theorem c7_a2a_without_payload_counterexample :
    (run_mock_conditional_workflow cr0 mr0
        (initial_state req_missing (some "REQ-4") (some "MortgageApproval"))).toOption.map
      (fun p => (p.1.requesting_agent, p.1.warnings, p.1.current_step)) =
      some (some "MortgageApproval", [], "valuation_ready_for_use") := by
  decide

/-- C8.  Under the conditional-routing policy, whenever DataIntake leaves
a non-empty error log the run goes straight from DataIntake to
ResponseDispatch: the trace holds exactly those two stages (so
ComparablesAnalysis, MarketAnalysis and FinalValuation never execute),
and the result fields of the final record remain unset. -/
theorem c8_error_short_circuit (req : Request) (rid rag : Option String)
    (cr : CompRand) (mr : MarketRand)
    (h : (mock_property_data_collection_node (initial_state req rid rag)).errors ≠ []) :
    run_mock_conditional_workflow cr mr (initial_state req rid rag) =
      .ok (mock_a2a_communication_node
             (mock_property_data_collection_node (initial_state req rid rag)),
           ["data_collection", "a2a_communication"]) ∧
    (mock_a2a_communication_node
        (mock_property_data_collection_node (initial_state req rid rag))).estimated_value
      = none ∧
    (mock_a2a_communication_node
        (mock_property_data_collection_node (initial_state req rid rag))).confidence_level
      = none ∧
    (mock_a2a_communication_node
        (mock_property_data_collection_node (initial_state req rid rag))).valuation_range
      = none ∧
    (mock_a2a_communication_node
        (mock_property_data_collection_node (initial_state req rid rag))).comparable_analysis
      = none ∧
    (mock_a2a_communication_node
        (mock_property_data_collection_node (initial_state req rid rag))).market_adjustment
      = none ∧
    (mock_a2a_communication_node
        (mock_property_data_collection_node (initial_state req rid rag))).response_data
      = none := by
  have hlen : 0 < (mock_property_data_collection_node (initial_state req rid rag)).errors.length :=
    List.length_pos.mpr h
  obtain ⟨e1, c1, v1, ca1, ma1, rd1, cs1, ra1⟩ :=
    mock_property_data_collection_node_frame (initial_state req rid rag)
  obtain ⟨ae, ac, av, aca, ama, ard, acs, aer⟩ :=
    mock_a2a_communication_node_frame
      (mock_property_data_collection_node (initial_state req rid rag))
  refine ⟨?_, ?_, ?_, ?_, ?_, ?_, ?_⟩
  · simp [run_mock_conditional_workflow, should_continue_after_data_collection, hlen]
  · exact ae.trans e1
  · exact ac.trans c1
  · exact av.trans v1
  · exact aca.trans ca1
  · exact ama.trans ma1
  · exact ard.trans rd1

/-- C8 witness: a request with three absent required attributes drives
DataIntake to an error, and the instantiated theorem yields the
short-circuited run. -/
theorem c8_error_short_circuit_witness :
    run_mock_conditional_workflow cr0 mr0
        (initial_state req_missing (some "REQ-4") (some "MortgageApproval")) =
      .ok (mock_a2a_communication_node
             (mock_property_data_collection_node
               (initial_state req_missing (some "REQ-4") (some "MortgageApproval"))),
           ["data_collection", "a2a_communication"]) :=
  (c8_error_short_circuit req_missing (some "REQ-4") (some "MortgageApproval")
    cr0 mr0 (by decide)).1

/-- C9.  DataIntake counts a zero-valued required attribute as missing
exactly as an absent one (both records classify identically), and the
price-per-square-foot fallback divisor 2000 fires when `square_footage`
is 0 — and also when the dict key is wholly absent — but when the field
is `None` (how every entry point of this repository represents an absent
request attribute) ComparablesAnalysis raises a `TypeError` while
synthesizing the comparables, before the divisor is ever reached. -/
theorem c9_zero_and_absent_square_footage :
    missing_fields (initial_state req_zero none none) = ["square_footage"] ∧
    missing_fields (initial_state req_no_sqft none none) = ["square_footage"] ∧
    data_completeness (initial_state req_zero none none) =
      data_completeness (initial_state req_no_sqft none none) ∧
    (mock_comparable_properties_node cr0 (initial_state req_zero none none)).toOption.map
      (fun t => t.comparable_analysis.map ComparableAnalysis.price_per_square_foot) =
      some (some (680/3)) ∧
    (mock_comparable_properties_node cr0
        { initial_state req_zero none none with
          square_footage := PyNum.absent }).toOption.map
      (fun t => t.comparable_analysis.map ComparableAnalysis.price_per_square_foot) =
      some (some (680/3)) ∧
    mock_comparable_properties_node cr0 (initial_state req_no_sqft none none) =
      .error type_error_msg := by
  refine ⟨by decide, by decide, by decide, ?_, ?_,
    by simp [mock_comparable_properties_node, initial_state, req_no_sqft, opt_to_py,
      PyNum.getD]⟩ <;>
    · simp [mock_comparable_properties_node, initial_state, req_zero, opt_to_py,
        PyNum.getD, PyNum.truthy, PyNum.force, Except.toOption, cr0]
      norm_num

/-- C10 (amended).  The degraded envelope of `create_safe_response` has
status PARTIAL_SUCCESS exactly when the record's `estimated_value` is set
AND nonzero (a present value 0.0 is Python-falsy and yields ERROR, see
the counterexample), never carries a `request_id` key, is therefore
always rejected by `validate_a2a_response`, and the `confidence_score` it
reports comes from a record key that the initial state and every pipeline
stage leave unwritten (so the default 0 always fires). -/
theorem c10_safe_response_shape (s : State) (cr : CompRand) (mr : MarketRand)
    (req : Request) (rid rag : Option String) :
    (create_safe_response s).status =
      some (if q_truthy s.estimated_value then "PARTIAL_SUCCESS" else "ERROR") ∧
    (create_safe_response s).request_id = none ∧
    validate_a2a_response (create_safe_response s) = some false ∧
    (∃ d, (create_safe_response s).data = some (.dict d) ∧
      d.confidence_score =
        some (if q_truthy s.estimated_value then s.confidence_score.getD 0 else 0)) ∧
    (initial_state req rid rag).confidence_score = none ∧
    (mock_property_data_collection_node s).confidence_score = s.confidence_score ∧
    (mock_market_analysis_node mr s).confidence_score = s.confidence_score ∧
    (mock_a2a_communication_node s).confidence_score = s.confidence_score ∧
    (mock_comparable_properties_node cr s).toOption.map State.confidence_score =
      (mock_comparable_properties_node cr s).toOption.map (fun _ => s.confidence_score) ∧
    (mock_final_valuation_node s).toOption.map State.confidence_score =
      (mock_final_valuation_node s).toOption.map (fun _ => s.confidence_score) := by
  have hstat : (create_safe_response s).status =
      some (if q_truthy s.estimated_value then "PARTIAL_SUCCESS" else "ERROR") := by
    unfold create_safe_response oq_truthy
    rcases hqv : s.estimated_value with _ | q
    · simp [q_truthy]
    · by_cases hq : q = 0 <;> simp [q_truthy, hq]
  refine ⟨hstat, rfl, ?_, ?_, rfl, ?_, rfl, ?_, ?_, ?_⟩
  · unfold validate_a2a_response create_safe_response oq_truthy
    rcases hqv : s.estimated_value with _ | q
    · simp [q_truthy]
    · by_cases hq : q = 0 <;> simp [q_truthy, hq]
  · refine ⟨_, rfl, ?_⟩
    rcases hqv : s.estimated_value with _ | q
    · simp [create_safe_response, q_truthy]
    · by_cases hq : q = 0 <;> simp [create_safe_response, q_truthy, hq]
  · exact (mock_property_data_collection_node_frame s).2.2.2.2.2.2.1
  · unfold mock_a2a_communication_node
    split_ifs <;> rfl
  · cases hc : mock_comparable_properties_node cr s with
    | ok t =>
      have hcs := mock_comparable_properties_node_ok_fields cr s t hc
      simp [Except.toOption, hcs]
    | error e => simp [Except.toOption]
  · cases hf : mock_final_valuation_node s with
    | ok t =>
      unfold mock_final_valuation_node at hf
      split at hf
      · simp only [Except.ok.injEq] at hf
        subst hf
        simp [Except.toOption]
      · simp at hf
    | error e => simp [Except.toOption]

/-- C10 counterexample to the claim as stated: this record's
`estimated_value` is set (non-null), yet the degraded envelope's status
is ERROR, not PARTIAL_SUCCESS — Python truthiness treats the present
value 0.0 as unset. -/
theorem c10_zero_estimate_counterexample :
    s_zero_est.estimated_value = some 0 ∧
    s_zero_est.estimated_value.isSome = true ∧
    (create_safe_response s_zero_est).status = some "ERROR" := by
  refine ⟨rfl, rfl, ?_⟩
  simp [create_safe_response, s_zero_est, q_truthy, oq_truthy]

end PropertyValue
